import Mathlib

/-!
Verification of the civic-problem-solver pipeline against its specification.

Strings from the Python source are modelled as `List Char`; each definition
below is a shallow embedding of a function from the repository
(`src/agents/civic_crewai_system.py`, `src/api/civic_crewai_system.py`,
`src/api/civic_flow.py`), translated clause by clause.
-/

namespace Civic

/-- Character list of a string literal (Python `str` values). -/
def str (s : String) : List Char := s.data

/-- Python `s.lower()` (ASCII fragment). -/
def lowerStr (s : List Char) : List Char := s.map Char.toLower

/-- Python `s.strip()` (ASCII whitespace fragment). -/
def stripStr (s : List Char) : List Char :=
  ((s.dropWhile Char.isWhitespace).reverse.dropWhile Char.isWhitespace).reverse

/-- Python `s.startswith(p)`: `p` is an initial run of `s`. -/
def startsWithCh : List Char → List Char → Bool
  | [], _ => true
  | _ :: _, [] => false
  | a :: as, b :: bs => a == b && startsWithCh as bs

/-- Python `p in s` for strings: `p` occurs as a contiguous substring of `s`. -/
def containsSub (p : List Char) : List Char → Bool
  | [] => startsWithCh p []
  | c :: rest => startsWithCh p (c :: rest) || containsSub p rest

/-- Left-to-right scanner behind `digitGroups`; `acc` holds the digits of
the run currently being read, in reverse. -/
def digitGroupsAux : List Char → List Char → List (List Char)
  | [], acc => if acc.isEmpty then [] else [acc.reverse]
  | c :: cs, acc =>
    if c.isDigit then
      digitGroupsAux cs (c :: acc)
    else if acc.isEmpty then
      digitGroupsAux cs []
    else
      acc.reverse :: digitGroupsAux cs []

/-- Python `re.findall(r'\d+', s)`: the maximal runs of digit characters of `s`. -/
def digitGroups (s : List Char) : List (List Char) := digitGroupsAux s []

/-!
## Verification tools

`PhoneValidatorTool._run` and `GeocodingTool._run`
(src/agents/civic_crewai_system.py lines 54-71 and 108-127).
Each tool returns a status string; the embedding records the emoji marker
that opens the string (✅ / ⚠️ / ❌) and the status word that follows it.
-/

/-- The emoji marker opening a tool result string: ✅, ⚠️ or ❌. -/
inductive Marker where
  | check
  | warn
  | cross
deriving DecidableEq

/-- Status word of `PhoneValidatorTool._run`. -/
inductive PhoneTag where
  | VALID
  | WARNING
  | INVALID
deriving DecidableEq

/-- `PhoneValidatorTool._run`: strip non-digits, then branch on the digit
count and the leading area code. -/
def phoneValidatorRun (phone_number : List Char) : Marker × PhoneTag :=
  let clean_phone := phone_number.filter Char.isDigit
  if clean_phone.length == 10 && startsWithCh (str "309") clean_phone then
    (Marker.check, PhoneTag.VALID)
  else if clean_phone.length == 10 then
    (Marker.warn, PhoneTag.WARNING)
  else
    (Marker.cross, PhoneTag.INVALID)

/-- Status word of `GeocodingTool._run`. -/
inductive GeoTag where
  | CONFIRMED
  | LIKELY
  | UNCERTAIN
deriving DecidableEq

/-- The `peoria_indicators` list of `GeocodingTool._run`. -/
def peoria_indicators : List (List Char) :=
  [str "peoria", str "pekin", str "bartonville", str "chillicothe", str "dunlap",
   str "elmwood", str "glasford", str "hanna city", str "mapleton", str "morton",
   str "peoria heights", str "washington", str "west peoria"]

/-- `GeocodingTool._run`: lower-case the address, look for known place names,
and distinguish the `peoria` + `il` case. -/
def geocodingRun (address : List Char) : Marker × GeoTag :=
  let address_lower := lowerStr address
  if peoria_indicators.any (fun city => containsSub city address_lower) then
    if containsSub (str "peoria") address_lower && containsSub (str "il") address_lower then
      (Marker.check, GeoTag.CONFIRMED)
    else
      (Marker.check, GeoTag.LIKELY)
  else
    (Marker.warn, GeoTag.UNCERTAIN)

/-!
## Data model

`Resource` embeds the resource dictionaries passed through the pipeline
(absent string fields are the empty string, matching `dict.get(k, '')`).
`CivicState` embeds the fields of the `CivicState` pydantic model that the
verified stages read or write.
-/

structure Resource where
  name : List Char := []
  category : List Char := []
  description : List Char := []
  contact : List Char := []
  url : List Char := []
  next_step : List Char := []
  location : List Char := []
  eligibility : List Char := []
  source : List Char := []
deriving DecidableEq

structure CivicState where
  user_message : List Char := []
  location : List Char := str "Central Illinois"
  needs_search : Bool := false
  need_category : List Char := []
  urgency_level : List Char := str "medium"
  search_performed : Bool := false
  resources_found : List Resource := []
  verification_results : Option (List Char) := none
  response_source : List Char := []
deriving DecidableEq

/-!
## Rule-based classifier fallback

The `except` branch of `decide_strategy`
(src/agents/civic_crewai_system.py lines 746-786).  The helper `has_word`
there searches `re.search(r'\b' + re.escape(word) + r'\b', text, re.IGNORECASE)`
for each word of a list; every keyword in the source is a nonempty run of
ASCII letters, for which `\b word \b` means: the word occurs (case
insensitively) with no word character (alphanumeric or underscore)
immediately before or after it.
-/

/-- Python regex word character `\w` (ASCII fragment). -/
def isWordChar (c : Char) : Bool := c.isAlphanum || c == '_'

/-- The character preceding a candidate match position is absent or not a
word character (the left `\b`). -/
def boundaryOk : Option Char → Bool
  | none => true
  | some c => !(isWordChar c)

/-- The pattern matches case-insensitively at the head of the text and is
followed by the end of the text or a non-word character (the right `\b`). -/
def icMatchEnd : List Char → List Char → Bool
  | [], [] => true
  | [], c :: _ => !(isWordChar c)
  | _ :: _, [] => false
  | a :: as, b :: bs => (a.toLower == b.toLower) && icMatchEnd as bs

/-- `re.search` of `\b w \b` (ignore case) over the text, scanning every
position; `prev` is the character just before the current position. -/
def hasWordFrom (w : List Char) : Option Char → List Char → Bool
  | prev, [] => boundaryOk prev && icMatchEnd w []
  | prev, c :: rest => (boundaryOk prev && icMatchEnd w (c :: rest)) || hasWordFrom w (some c) rest

/-- The source's `has_word(text, words)` helper. -/
def hasWordIn (text : List Char) (words : List (List Char)) : Bool :=
  words.any (fun w => hasWordFrom w none text)

def greetingWords : List (List Char) := [str "hi", str "hello", str "hey"]

def housingKeywords : List (List Char) :=
  [str "housing", str "house", str "rent", str "apartment", str "home", str "shelter", str "homeless"]

def emergencyKeywords : List (List Char) :=
  [str "emergency", str "urgent", str "immediately", str "crisis", str "homeless"]

def foodKeywords : List (List Char) :=
  [str "food", str "hungry", str "meal", str "pantry", str "snap", str "groceries", str "eating"]

def healthcareKeywords : List (List Char) :=
  [str "health", str "medical", str "doctor", str "clinic", str "mental", str "healthcare"]

def familyServicesKeywords : List (List Char) :=
  [str "child", str "safety", str "abuse", str "neglect", str "family", str "parenting", str "protection"]

def employmentKeywords : List (List Char) :=
  [str "job", str "work", str "employment", str "career", str "business", str "startup", str "restaurant", str "company"]

def transportationKeywords : List (List Char) :=
  [str "transport", str "bus", str "ride", str "car", str "transportation", str "travel"]

def legalKeywords : List (List Char) :=
  [str "legal", str "lawyer", str "court", str "law"]

def financialKeywords : List (List Char) :=
  [str "financial", str "money", str "bills", str "debt", str "assistance"]

/-- The rule-based fallback branch of `decide_strategy`: greeting check on
the trimmed lower-cased message, then the keyword `elif` chain. -/
def decideStrategyFallback (s : CivicState) : CivicState :=
  let user_msg := stripStr (lowerStr s.user_message)
  if greetingWords.contains user_msg then
    { s with needs_search := false, need_category := [] }
  else
    let s1 := { s with needs_search := true }
    if hasWordIn user_msg housingKeywords then
      { s1 with need_category := str "housing",
                urgency_level :=
                  if hasWordIn user_msg emergencyKeywords then str "high" else str "medium" }
    else if hasWordIn user_msg foodKeywords then
      { s1 with need_category := str "food" }
    else if hasWordIn user_msg healthcareKeywords then
      { s1 with need_category := str "healthcare" }
    else if hasWordIn user_msg familyServicesKeywords then
      { s1 with need_category := str "family_services" }
    else if hasWordIn user_msg employmentKeywords then
      { s1 with need_category := str "employment" }
    else if hasWordIn user_msg transportationKeywords then
      { s1 with need_category := str "transportation" }
    else if hasWordIn user_msg legalKeywords then
      { s1 with need_category := str "legal" }
    else if hasWordIn user_msg financialKeywords then
      { s1 with need_category := str "financial" }
    else
      { s1 with need_category := str "general" }

/-- The category keyword sets in the priority order stated by the spec
(housing, food, healthcare, family_services, employment, transportation,
legal, financial). -/
def categoryTable : List (List Char × List (List Char)) :=
  [(str "housing", housingKeywords),
   (str "food", foodKeywords),
   (str "healthcare", healthcareKeywords),
   (str "family_services", familyServicesKeywords),
   (str "employment", employmentKeywords),
   (str "transportation", transportationKeywords),
   (str "legal", legalKeywords),
   (str "financial", financialKeywords)]

/-- Stated from the spec's words, for comparison with the source's chain:
the first category in the fixed priority order whose keyword set
word-boundary-matches the message, else `general`. -/
def firstMatchingCategory (msg : List Char) : List Char :=
  match categoryTable.find? (fun p => hasWordIn msg p.2) with
  | some p => p.1
  | none => str "general"

/-!
## URL sanitizer

`_clean_fake_urls` (src/agents/civic_crewai_system.py lines 1527-1575; the
copy in src/api/civic_crewai_system.py lines 1083-1131 is identical).
-/

/-- The `fake_domains` denylist. -/
def fake_domains : List (List Char) :=
  [str "211centralillinois.org",
   str "peoriarescuemission.org",
   str "salvationarmyheartland.org",
   str "hoihabitat.org",
   str "peoria.score.org",
   str "greaterpeoriaedc.org",
   str "illinoissbdc.org"]

/-- `any(fake_domain in url for fake_domain in fake_domains)`. -/
def isFakeUrl (url : List Char) : Bool :=
  fake_domains.any (fun d => containsSub d url)

/-- `'Dial 2-1-1' in phone or phone.startswith('2-1-1')`. -/
def is211Contact (phone : List Char) : Bool :=
  containsSub (str "Dial 2-1-1") phone || startsWithCh (str "2-1-1") phone

/-- `phone and ('(' in phone or phone.startswith('2-1-1') or 'Dial' in phone)`. -/
def dialableContact (phone : List Char) : Bool :=
  !phone.isEmpty &&
    (phone.contains '(' || startsWithCh (str "2-1-1") phone || containsSub (str "Dial") phone)

/-- The replacement URL computed inside the dialable branch: `tel:211` for
2-1-1 contacts, else digit extraction with the 10-digit dash format. -/
def replacementUrl (phone : List Char) : List Char :=
  if is211Contact phone then
    str "tel:211"
  else
    let numbers := digitGroups phone
    if 3 ≤ numbers.length then
      let phone_num := numbers.flatten
      if phone_num.length == 10 then
        str "tel:" ++ phone_num.take 3 ++ str "-" ++ (phone_num.drop 3).take 3
          ++ str "-" ++ phone_num.drop 6
      else
        str "tel:" ++ phone_num
    else
      str "tel:211"

/-- The body of the `_clean_fake_urls` loop for one resource. -/
def cleanResource (resource : Resource) : Resource :=
  if !resource.url.isEmpty && isFakeUrl resource.url then
    { resource with
        url :=
          if dialableContact resource.contact then replacementUrl resource.contact
          else str "tel:211" }
  else
    resource

/-- `_clean_fake_urls`. -/
def cleanFakeUrls (resources : List Resource) : List Resource :=
  resources.map cleanResource

/-!
## Resource verification stage

`verify_resources` (src/agents/civic_crewai_system.py lines 887-955).  The
narrative verification crew is a collaborator; its outcome is passed in as
`crewOutcome` (`some report` = `str(result)`, `none` = raised exception).
-/

def verifyResources (crewOutcome : Option (List Char)) (s : CivicState) : CivicState :=
  if s.resources_found.isEmpty || !s.search_performed then
    s
  else if s.resources_found.length == 0 then
    s
  else
    match crewOutcome with
    | some report => { s with verification_results := some report }
    | none => { s with verification_results := some (str "Verification temporarily unavailable") }

/-!
## Static fallback resources

`_use_fallback_resources` and the head of `search_resources`
(src/agents/civic_crewai_system.py lines 1345-1378 and 800-810).
-/

def foodFallbackResource : Resource :=
  { name := str "211 Central Illinois",
    category := str "General Resources",
    description := str "Comprehensive directory of food pantries, SNAP assistance, and meal programs",
    contact := str "Dial 2-1-1",
    url := str "tel:211",
    next_step := str "Call 211 for current food assistance options",
    source := str "fallback" }

def housingFallbackResource : Resource :=
  { name := str "211 Central Illinois",
    category := str "General Resources",
    description := str "Housing assistance, rental aid, and emergency shelter information",
    contact := str "Dial 2-1-1",
    url := str "tel:211",
    next_step := str "Call 211 for housing assistance options",
    source := str "fallback" }

def genericFallbackResource : Resource :=
  { name := str "211 Central Illinois",
    category := str "General Resources",
    description := str "Comprehensive information about local health and human services",
    contact := str "Dial 2-1-1",
    url := str "tel:211",
    next_step := str "Call 211 for assistance with your specific need",
    source := str "fallback" }

/-- `_use_fallback_resources`: `fallback_resources.get(need_category, generic)`. -/
def useFallbackResources (s : CivicState) : CivicState :=
  { s with
      response_source := str "fallback",
      resources_found :=
        if s.need_category == str "food" then [foodFallbackResource]
        else if s.need_category == str "housing" then [housingFallbackResource]
        else [genericFallbackResource] }

/-- The branching head of `search_resources`: no search wanted, no search
tool, or the search path proper (the latter is an out-of-claim collaborator
passed as `searchBranch`). -/
def searchResources (toolAvailable : Bool) (searchBranch : CivicState → CivicState)
    (s : CivicState) : CivicState :=
  if !s.needs_search then { s with response_source := str "conversation" }
  else if !toolAvailable then useFallbackResources s
  else searchBranch s

/-!
## Flow-variant search-result parsing

`CivicResourceFlow._parse_search_results` (src/api/civic_flow.py lines
259-304).  Resource dictionaries there acquire keys one line at a time, so
fields are embedded as `Option`.
-/

structure FlowResource where
  name : Option (List Char) := none
  category : Option (List Char) := none
  contact : Option (List Char) := none
  url : Option (List Char) := none
  description : Option (List Char) := none
  eligibility : Option (List Char) := none
deriving DecidableEq

/-- Python `line.split(':', 1)[-1]`: everything after the first colon, or
the whole string when there is none. -/
def afterFirstColonAux : List Char → Option (List Char)
  | [] => none
  | c :: rest => if c == ':' then some rest else afterFirstColonAux rest

def afterFirstColon (s : List Char) : List Char :=
  (afterFirstColonAux s).getD s

/-- Python `s.replace('_', ' ')`. -/
def replaceUnderscores (s : List Char) : List Char :=
  s.map (fun c => if c == '_' then ' ' else c)

/-- Python `s.title()` (ASCII fragment): upper-case a letter not preceded
by a letter, lower-case the rest. -/
def pyTitleAux : Bool → List Char → List Char
  | _, [] => []
  | prevAlpha, c :: cs =>
    (if c.isAlpha then (if prevAlpha then c.toLower else c.toUpper) else c) :: pyTitleAux c.isAlpha cs

def pyTitle (s : List Char) : List Char := pyTitleAux false s

/-- `self.state.needs_category.replace("_", " ").title()`. -/
def titledCategory (cat : List Char) : List Char := pyTitle (replaceUnderscores cat)

def nameIndicators : List (List Char) := [str "name:", str "organization:", str "program:"]
def contactIndicators : List (List Char) := [str "phone:", str "contact:", str "call:"]
def urlIndicators : List (List Char) := [str "website:", str "web:", str "url:"]
def descriptionIndicators : List (List Char) := [str "description:", str "services:", str "offers:"]
def eligibilityIndicators : List (List Char) := [str "eligibility:", str "requirements:", str "qualifies:"]

/-- One iteration of the `for line in lines` loop; the accumulator is
`(resources, current_resource)`. -/
def flowParseStep (cat : List Char) (acc : List FlowResource × FlowResource)
    (rawLine : List Char) : List FlowResource × FlowResource :=
  let line := stripStr rawLine
  if line.isEmpty then
    if acc.2.name.isSome then (acc.1 ++ [acc.2], {}) else acc
  else if nameIndicators.any (fun ind => containsSub ind (lowerStr line)) then
    (acc.1, { acc.2 with
                name := some (stripStr (afterFirstColon line)),
                category := some (titledCategory cat) })
  else if contactIndicators.any (fun ind => containsSub ind (lowerStr line)) then
    (acc.1, { acc.2 with contact := some (stripStr (afterFirstColon line)) })
  else if urlIndicators.any (fun ind => containsSub ind (lowerStr line)) then
    (acc.1, { acc.2 with url := some (stripStr (afterFirstColon line)) })
  else if descriptionIndicators.any (fun ind => containsSub ind (lowerStr line)) then
    (acc.1, { acc.2 with description := some (stripStr (afterFirstColon line)) })
  else if eligibilityIndicators.any (fun ind => containsSub ind (lowerStr line)) then
    (acc.1, { acc.2 with eligibility := some (stripStr (afterFirstColon line)) })
  else
    acc

/-- The parsed resource list before the final cap: the line loop, the
trailing append, and the synthesized generic resource for unparsed
non-empty search text. -/
def rawParsedResources (cat : List Char) (search_text : List Char) : List FlowResource :=
  let lines := search_text.splitOn '\n'
  let acc := lines.foldl (flowParseStep cat) ([], {})
  let resources := if acc.2.name.isSome then acc.1 ++ [acc.2] else acc.1
  if resources.isEmpty && !search_text.isEmpty then
    [{ name := some (str "Local Resource Information"),
       category := some (titledCategory cat),
       description := some (if 300 < search_text.length
                            then search_text.take 300 ++ str "..." else search_text),
       contact := some (str "Call 2-1-1 for more information"),
       url := some (str "https://www.211.org"),
       eligibility := some (str "Varies by program") }]
  else
    resources

/-- `_parse_search_results`: the stored list is `resources[:6]`. -/
def parseSearchResultsFlow (cat : List Char) (search_text : List Char) : List FlowResource :=
  (rawParsedResources cat search_text).take 6

/-!
## Auxiliary definitions for the statements and proofs
-/

/-- The characters a sanitized `tel:` URL can be made of. -/
def telChar (c : Char) : Bool :=
  (c == 't') || (c == 'e') || (c == 'l') || (c == ':') || (c == '-') || c.isDigit

/-- A resource with a denylisted URL and a dialable contact whose ten
digits occur in a single run. -/
def singleRunContactResource : Resource :=
  { url := str "https://211centralillinois.org/help", contact := str "(3095551234)" }

/-- The resource of the spec's end-to-end scenario 4: denylisted URL, a
contact with ten digits in three runs. -/
def scenarioFourResource : Resource :=
  { url := str "https://peoriarescuemission.org", contact := str "(309) 555-0100" }

/-!
# Helper lemmas
-/

theorem startsWithCh_iff : ∀ (p s : List Char), startsWithCh p s = true ↔ ∃ t, s = p ++ t
  | [], s => by simp [startsWithCh]
  | _ :: _, [] => by simp [startsWithCh]
  | a :: as, b :: bs => by
    simp only [startsWithCh, Bool.and_eq_true, beq_iff_eq, startsWithCh_iff as bs,
      List.cons_append]
    constructor
    · rintro ⟨rfl, t, rfl⟩
      exact ⟨t, rfl⟩
    · rintro ⟨t, h⟩
      injection h with h1 h2
      exact ⟨h1.symm, t, h2⟩

theorem containsSub_iff (p : List Char) :
    ∀ (s : List Char), containsSub p s = true ↔ ∃ a b, s = a ++ (p ++ b)
  | [] => by
    show startsWithCh p [] = true ↔ _
    rw [startsWithCh_iff]
    constructor
    · rintro ⟨t, ht⟩
      exact ⟨[], t, by simpa using ht⟩
    · rintro ⟨a, b, hab⟩
      have h1 := List.append_eq_nil.1 hab.symm
      have h2 := List.append_eq_nil.1 h1.2
      exact ⟨[], by simp [h2.1]⟩
  | c :: rest => by
    simp only [containsSub, Bool.or_eq_true, startsWithCh_iff, containsSub_iff p rest]
    constructor
    · rintro (⟨t, ht⟩ | ⟨a, b, hab⟩)
      · exact ⟨[], t, by simpa using ht⟩
      · exact ⟨c :: a, b, by simp [hab]⟩
    · rintro ⟨a, b, hab⟩
      cases a with
      | nil => exact Or.inl ⟨b, by simpa using hab⟩
      | cons x xs =>
        injection hab with h1 h2
        exact Or.inr ⟨xs, b, h2⟩

theorem mem_of_containsSub {p s : List Char} (h : containsSub p s = true) :
    ∀ c ∈ p, c ∈ s := by
  obtain ⟨a, b, rfl⟩ := (containsSub_iff p s).1 h
  intro c hc
  simp [hc]

theorem containsSub_left_of_append {p q s : List Char}
    (h : containsSub (p ++ q) s = true) : containsSub p s = true := by
  obtain ⟨a, b, rfl⟩ := (containsSub_iff (p ++ q) s).1 h
  exact (containsSub_iff p _).2 ⟨a, q ++ b, by simp⟩

theorem ne_nil_of_containsSub {p s : List Char} (hp : p ≠ [])
    (h : containsSub p s = true) : s ≠ [] := by
  obtain ⟨a, b, rfl⟩ := (containsSub_iff p s).1 h
  simp [hp]

theorem digitGroupsAux_digits : ∀ (s acc : List Char), (∀ c ∈ acc, c.isDigit = true) →
    ∀ g ∈ digitGroupsAux s acc, ∀ c ∈ g, c.isDigit = true := by
  intro s
  induction s with
  | nil =>
    intro acc hacc g hg
    simp only [digitGroupsAux] at hg
    split at hg
    · simp at hg
    · rw [List.mem_singleton] at hg
      subst hg
      intro c hc
      exact hacc c (List.mem_reverse.1 hc)
  | cons a as ih =>
    intro acc hacc g hg
    simp only [digitGroupsAux] at hg
    split at hg
    · rename_i hdig
      refine ih _ ?_ g hg
      intro c hc
      rcases List.mem_cons.1 hc with rfl | h
      · exact hdig
      · exact hacc c h
    · split at hg
      · exact ih [] (by simp) g hg
      · rcases List.mem_cons.1 hg with rfl | hg'
        · intro c hc
          exact hacc c (List.mem_reverse.1 hc)
        · exact ih [] (by simp) g hg'

theorem digitGroups_digits (s : List Char) :
    ∀ g ∈ digitGroups s, ∀ c ∈ g, c.isDigit = true :=
  digitGroupsAux_digits s [] (by simp)

theorem replacementUrl_chars (phone : List Char) :
    ∀ c ∈ replacementUrl phone, telChar c = true := by
  have h211 : ∀ c ∈ str "tel:211", telChar c = true := by decide
  have htel : ∀ c ∈ str "tel:", telChar c = true := by decide
  have hdash : ∀ c ∈ str "-", telChar c = true := by decide
  have hdigit : ∀ c ∈ (digitGroups phone).flatten, telChar c = true := by
    intro c hc
    obtain ⟨g, hg, hcg⟩ := List.mem_flatten.1 hc
    have := digitGroups_digits phone g hg c hcg
    simp [telChar, this]
  intro c hc
  simp only [replacementUrl] at hc
  split at hc
  · exact h211 c hc
  · split at hc
    · split at hc
      · simp only [List.append_assoc, List.mem_append] at hc
        rcases hc with hc | hc | hc | hc | hc | hc
        · exact htel c hc
        · exact hdigit c (List.take_subset _ _ hc)
        · exact hdash c hc
        · exact hdigit c (List.drop_subset _ _ (List.take_subset _ _ hc))
        · exact hdash c hc
        · exact hdigit c (List.drop_subset _ _ hc)
      · rcases List.mem_append.1 hc with hc | hc
        · exact htel c hc
        · exact hdigit c hc
    · exact h211 c hc

theorem fake_domains_facts : ∀ d ∈ fake_domains, 'g' ∈ d ∧ d ≠ [] := by decide

theorem not_containsSub_of_telChars {u : List Char} (hu : ∀ c ∈ u, telChar c = true)
    {d : List Char} (hd : d ∈ fake_domains) : containsSub d u = false := by
  cases h : containsSub d u with
  | false => rfl
  | true =>
    exfalso
    have hg := (fake_domains_facts d hd).1
    have hmem := mem_of_containsSub h 'g' hg
    have := hu 'g' hmem
    simp [telChar] at this

theorem cleanResource_url_clean (r : Resource) :
    ∀ d ∈ fake_domains, containsSub d (cleanResource r).url = false := by
  intro d hd
  unfold cleanResource
  split
  · apply not_containsSub_of_telChars _ hd
    show ∀ c ∈ (if dialableContact r.contact then replacementUrl r.contact
                else str "tel:211"), telChar c = true
    split
    · exact replacementUrl_chars _
    · decide
  · rename_i hguard
    rw [Bool.and_eq_true, Bool.not_eq_true'] at hguard
    push_neg at hguard
    by_cases hemp : r.url.isEmpty = true
    · have : r.url = [] := List.isEmpty_iff.1 hemp
      rw [this]
      obtain ⟨x, xs, rfl⟩ : ∃ x xs, d = x :: xs := by
        rcases d with _ | ⟨x, xs⟩
        · exact absurd rfl (fake_domains_facts _ hd).2
        · exact ⟨x, xs, rfl⟩
      rfl
    · have hne : r.url.isEmpty = false := by
        cases h : r.url.isEmpty
        · rfl
        · exact absurd h hemp
      have hfake : isFakeUrl r.url = false := by
        cases h : isFakeUrl r.url
        · rfl
        · exact absurd h (hguard hne)
      have := List.any_eq_false.1 hfake d hd
      cases h : containsSub d r.url
      · rfl
      · exact absurd h this

theorem cleanResource_not_fake_after (r : Resource) :
    isFakeUrl (cleanResource r).url = false := by
  apply List.any_eq_false.2
  intro d hd
  simp [cleanResource_url_clean r d hd]

theorem cleanResource_of_not_fake {x : Resource} (h : isFakeUrl x.url = false) :
    cleanResource x = x := by
  unfold cleanResource
  rw [h]
  simp

theorem is211Contact_dialable {phone : List Char} (h : is211Contact phone = true) :
    dialableContact phone = true := by
  unfold is211Contact at h
  unfold dialableContact
  rw [Bool.or_eq_true] at h
  rcases h with h1 | h1
  · have hdial : containsSub (str "Dial") phone = true := by
      have : str "Dial 2-1-1" = str "Dial" ++ str " 2-1-1" := rfl
      rw [this] at h1
      exact containsSub_left_of_append h1
    have hne : phone ≠ [] := ne_nil_of_containsSub (by decide) h1
    simp [hne, hdial, List.isEmpty_iff]
  · have hne : phone ≠ [] := by
      obtain ⟨t, rfl⟩ := (startsWithCh_iff _ _).1 h1
      simp [str]
    simp [hne, h1, List.isEmpty_iff]

/-!
# Claim theorems
-/

/-- C1 (amended): `_clean_fake_urls` never leaves a denylisted domain
substring in any output url; it is the per-resource map that rewrites only
the `url` field; a denylisted url is replaced by `tel:211` for contacts
containing `Dial 2-1-1` or starting with `2-1-1` and for non-dialable
contacts; a dialable contact (containing a parenthesis or `Dial`) is
otherwise mapped through digit-run extraction — fewer than three digit runs
give `tel:211`, ten digits across at least three runs give
`tel:XXX-XXX-XXXX`, and any other digit count across at least three runs
gives `tel:` followed by the bare digit string. -/
theorem cleanFakeUrls_spec :
    (∀ rs : List Resource, ∀ r ∈ cleanFakeUrls rs, ∀ d ∈ fake_domains,
        containsSub d r.url = false)
    ∧ (∀ rs : List Resource, cleanFakeUrls rs = rs.map cleanResource)
    ∧ (∀ r : Resource,
        ((cleanResource r).name = r.name ∧ (cleanResource r).category = r.category
          ∧ (cleanResource r).description = r.description
          ∧ (cleanResource r).contact = r.contact
          ∧ (cleanResource r).next_step = r.next_step
          ∧ (cleanResource r).location = r.location
          ∧ (cleanResource r).eligibility = r.eligibility
          ∧ (cleanResource r).source = r.source)
        ∧ (isFakeUrl r.url = false → cleanResource r = r)
        ∧ (r.url ≠ [] → isFakeUrl r.url = true →
            (is211Contact r.contact = true → (cleanResource r).url = str "tel:211")
            ∧ (dialableContact r.contact = false → (cleanResource r).url = str "tel:211")
            ∧ (dialableContact r.contact = true → is211Contact r.contact = false →
                (digitGroups r.contact).length < 3 → (cleanResource r).url = str "tel:211")
            ∧ (dialableContact r.contact = true → is211Contact r.contact = false →
                3 ≤ (digitGroups r.contact).length →
                ((digitGroups r.contact).flatten.length = 10 →
                  (cleanResource r).url =
                    str "tel:" ++ (digitGroups r.contact).flatten.take 3 ++ str "-"
                      ++ ((digitGroups r.contact).flatten.drop 3).take 3 ++ str "-"
                      ++ (digitGroups r.contact).flatten.drop 6)
                ∧ ((digitGroups r.contact).flatten.length ≠ 10 →
                  (cleanResource r).url = str "tel:" ++ (digitGroups r.contact).flatten)))) := by
  refine ⟨?_, fun rs => rfl, ?_⟩
  · intro rs r hr d hd
    obtain ⟨r0, _, rfl⟩ := List.mem_map.1 hr
    exact cleanResource_url_clean r0 d hd
  · intro r
    refine ⟨?_, cleanResource_of_not_fake, ?_⟩
    · unfold cleanResource
      split <;> simp
    · intro hne hfake
      have hguard : (!r.url.isEmpty && isFakeUrl r.url) = true := by
        simp [hfake, List.isEmpty_eq_false.2 hne]
      have hurl : (cleanResource r).url =
          (if dialableContact r.contact then replacementUrl r.contact
           else str "tel:211") := by
        unfold cleanResource
        rw [hguard]
        simp
      refine ⟨?_, ?_, ?_, ?_⟩
      · intro h211
        rw [hurl, if_pos (is211Contact_dialable h211)]
        unfold replacementUrl
        rw [h211]
        simp
      · intro hdial
        rw [hurl, if_neg]
        simp [hdial]
      · intro hdial h211 hlen
        rw [hurl, if_pos hdial]
        unfold replacementUrl
        rw [h211]
        simp [if_neg (by omega : ¬ 3 ≤ (digitGroups r.contact).length)]
      · intro hdial h211 hlen
        rw [hurl, if_pos hdial]
        unfold replacementUrl
        rw [h211]
        simp only [Bool.false_eq_true, if_false, if_pos hlen]
        constructor
        · intro h10
          have hb : ((digitGroups r.contact).flatten.length == 10) = true :=
            beq_iff_eq.mpr h10
          rw [hb]
          simp
        · intro h10
          have hb : ((digitGroups r.contact).flatten.length == 10) = false :=
            beq_eq_false_iff_ne.mpr h10
          rw [hb]
          simp

/-- C1 counterexample: the contact `(3095551234)` is dialable and its
digits form a 10-digit number, yet the sanitizer maps the denylisted url to
`tel:211` and not to `tel:309-555-1234` as the claim requires, because the
ten digits occur in a single run (fewer than the three runs the code
demands). -/
theorem cleanFakeUrls_counterexample :
    dialableContact (str "(3095551234)") = true
    ∧ ((str "(3095551234)").filter Char.isDigit).length = 10
    ∧ cleanFakeUrls [singleRunContactResource] =
        [{ singleRunContactResource with url := str "tel:211" }]
    ∧ str "tel:211" ≠ str "tel:309-555-1234" := by
  refine ⟨by decide, by decide, by decide, by decide⟩

/-- C1 witness: the spec's end-to-end scenario 4 — a denylisted url with
contact `(309) 555-0100` is rewritten to `tel:309-555-0100`. -/
theorem cleanFakeUrls_spec_witness :
    (cleanResource scenarioFourResource).url = str "tel:309-555-0100" := by
  have h := (cleanFakeUrls_spec.2.2 scenarioFourResource).2.2 (by decide) (by decide)
  have h2 := (h.2.2.2 (by decide) (by decide) (by decide)).1 (by decide)
  rw [h2]
  decide

/-- Claim C2: the URL sanitizer is idempotent — a sanitized list passes
through unchanged because no sanitized url matches the denylist again. -/
theorem cleanFakeUrls_idem (rs : List Resource) :
    cleanFakeUrls (cleanFakeUrls rs) = cleanFakeUrls rs := by
  unfold cleanFakeUrls
  rw [List.map_map]
  exact List.map_congr_left fun r _ =>
    cleanResource_of_not_fake (cleanResource_not_fake_after r)

/-- Claim C3: `verify_resources` never touches `resources_found` — on a
state with resources found and a search performed, whatever the narrative
verification crew does (report or exception), the resource list and every
other field except `verification_results` are unchanged. -/
theorem verifyResources_frame (o : Option (List Char)) (s : CivicState)
    (h1 : s.resources_found ≠ []) (h2 : s.search_performed = true) :
    (verifyResources o s).resources_found = s.resources_found
    ∧ verifyResources o s =
        { s with verification_results := (verifyResources o s).verification_results } := by
  have hc1 : (s.resources_found.isEmpty || !s.search_performed) = false := by
    simp [h1, h2]
  have hc2 : (s.resources_found.length == 0) = false := by
    simp [h1]
  unfold verifyResources
  rw [hc1, hc2]
  cases o <;> simp

/-- Claim C3 witness: verification of a concrete one-element resource list
leaves the list intact. -/
theorem verifyResources_frame_witness :
    (verifyResources (some (str "report"))
        { search_performed := true,
          resources_found := [genericFallbackResource] }).resources_found
      = [genericFallbackResource] :=
  (verifyResources_frame (some (str "report"))
    { search_performed := true, resources_found := [genericFallbackResource] }
    (by decide) (by decide)).1

/-- Claim C4: the phone check, on the digits of its input, answers VALID
exactly for ten digits starting with 309, WARNING exactly for ten digits
starting otherwise, and INVALID exactly for any other digit count. -/
theorem phoneValidator_characterization (phone_number : List Char) :
    ((phoneValidatorRun phone_number).2 = PhoneTag.VALID ↔
      (phone_number.filter Char.isDigit).length = 10
        ∧ startsWithCh (str "309") (phone_number.filter Char.isDigit) = true)
    ∧ ((phoneValidatorRun phone_number).2 = PhoneTag.WARNING ↔
      (phone_number.filter Char.isDigit).length = 10
        ∧ startsWithCh (str "309") (phone_number.filter Char.isDigit) = false)
    ∧ ((phoneValidatorRun phone_number).2 = PhoneTag.INVALID ↔
      (phone_number.filter Char.isDigit).length ≠ 10) := by
  unfold phoneValidatorRun
  cases h1 : (phone_number.filter Char.isDigit).length == 10 <;>
    cases h2 : startsWithCh (str "309") (phone_number.filter Char.isDigit) <;>
      simp_all

/-- Claim C4 witness: a concrete 309 number is VALID. -/
theorem phoneValidator_witness :
    (phoneValidatorRun (str "(309) 555-0100")).2 = PhoneTag.VALID :=
  (phoneValidator_characterization (str "(309) 555-0100")).1.mpr (by decide)

/-- Claim C5: a message whose lower-cased trimmed form is one of the three
greeting words makes the classifier fallback set `needs_search = false` and
an empty category. -/
theorem greeting_fallback (s : CivicState)
    (h : stripStr (lowerStr s.user_message) ∈ greetingWords) :
    (decideStrategyFallback s).needs_search = false
    ∧ (decideStrategyFallback s).need_category = [] := by
  have hc : greetingWords.contains (stripStr (lowerStr s.user_message)) = true := by
    simpa using h
  simp only [decideStrategyFallback, hc]
  simp

/-- Claim C5 witness: a padded mixed-case hello is conversation-only. -/
theorem greeting_fallback_witness :
    (decideStrategyFallback { user_message := str "  HeLLo  " }).needs_search = false
    ∧ (decideStrategyFallback { user_message := str "  HeLLo  " }).need_category = [] :=
  greeting_fallback _ (by decide)

/-- Claim C6: a non-greeting message matching a housing keyword is
classified `housing` with urgency `medium`, and `high` instead exactly when
an emergency keyword also matches. -/
theorem housing_fallback (s : CivicState)
    (hg : stripStr (lowerStr s.user_message) ∉ greetingWords)
    (hh : hasWordIn (stripStr (lowerStr s.user_message)) housingKeywords = true) :
    (hasWordIn (stripStr (lowerStr s.user_message)) emergencyKeywords = false →
      (decideStrategyFallback s).need_category = str "housing"
      ∧ (decideStrategyFallback s).urgency_level = str "medium")
    ∧ (hasWordIn (stripStr (lowerStr s.user_message)) emergencyKeywords = true →
      (decideStrategyFallback s).need_category = str "housing"
      ∧ (decideStrategyFallback s).urgency_level = str "high") := by
  have hc : greetingWords.contains (stripStr (lowerStr s.user_message)) = false := by
    simpa using hg
  constructor
  · intro he
    simp only [decideStrategyFallback, hc, hh, he]
    simp
  · intro he
    simp only [decideStrategyFallback, hc, hh, he]
    simp

/-- Claim C6 witness: a plain housing request gets medium urgency, an
urgent one gets high urgency, both classified housing. -/
theorem housing_fallback_witness :
    ((decideStrategyFallback { user_message := str "I need an apartment" }).need_category
        = str "housing"
      ∧ (decideStrategyFallback { user_message := str "I need an apartment" }).urgency_level
        = str "medium")
    ∧ ((decideStrategyFallback { user_message := str "Urgent rent help" }).need_category
        = str "housing"
      ∧ (decideStrategyFallback { user_message := str "Urgent rent help" }).urgency_level
        = str "high") :=
  ⟨(housing_fallback _ (by decide) (by decide)).1 (by decide),
   (housing_fallback _ (by decide) (by decide)).2 (by decide)⟩

/-- Claim C7: on any non-greeting message, the fallback's `elif` chain
assigns exactly the first category, in the fixed priority order housing,
food, healthcare, family_services, employment, transportation, legal,
financial, whose keyword set word-boundary-matches the message, and
`general` when none does; in particular the earlier of any two matching
categories wins. -/
theorem fallback_category_priority (s : CivicState)
    (hg : stripStr (lowerStr s.user_message) ∉ greetingWords) :
    (decideStrategyFallback s).need_category =
      firstMatchingCategory (stripStr (lowerStr s.user_message)) := by
  have hc : greetingWords.contains (stripStr (lowerStr s.user_message)) = false := by
    simpa using hg
  set m := stripStr (lowerStr s.user_message) with hm
  simp only [decideStrategyFallback, firstMatchingCategory, categoryTable, hc, ← hm]
  cases h1 : hasWordIn m housingKeywords <;>
    cases h2 : hasWordIn m foodKeywords <;>
      cases h3 : hasWordIn m healthcareKeywords <;>
        cases h4 : hasWordIn m familyServicesKeywords <;>
          cases h5 : hasWordIn m employmentKeywords <;>
            cases h6 : hasWordIn m transportationKeywords <;>
              cases h7 : hasWordIn m legalKeywords <;>
                cases h8 : hasWordIn m financialKeywords <;>
                  simp [h1, h2, h3, h4, h5, h6, h7, h8, List.find?]

/-- Claim C7 witness: a message matching both the food and the legal
keyword sets is assigned food, the earlier category. -/
theorem fallback_category_priority_witness :
    (decideStrategyFallback { user_message := str "food and legal help" }).need_category
      = firstMatchingCategory (stripStr (lowerStr (str "food and legal help")))
    ∧ firstMatchingCategory (stripStr (lowerStr (str "food and legal help"))) = str "food"
    ∧ hasWordIn (stripStr (lowerStr (str "food and legal help"))) foodKeywords = true
    ∧ hasWordIn (stripStr (lowerStr (str "food and legal help"))) legalKeywords = true :=
  ⟨fallback_category_priority _ (by decide), by decide, by decide, by decide⟩

/-- Claim C8 (amended): the address check always answers and has no
INVALID/error outcome; both the principal city name and the state
abbreviation substring present give the confirmed result; a recognized
place name without that principal-city-plus-state combination gives the
LIKELY result, which carries the positive marker (✅), not the warning
marker; no recognized place name gives the UNCERTAIN warning. -/
theorem geocoding_characterization (address : List Char) :
    ((geocodingRun address).1 = Marker.check ∨ (geocodingRun address).1 = Marker.warn)
    ∧ (containsSub (str "peoria") (lowerStr address) = true →
        containsSub (str "il") (lowerStr address) = true →
        geocodingRun address = (Marker.check, GeoTag.CONFIRMED))
    ∧ (∀ p ∈ peoria_indicators, containsSub p (lowerStr address) = true →
        (containsSub (str "peoria") (lowerStr address) = false
          ∨ containsSub (str "il") (lowerStr address) = false) →
        geocodingRun address = (Marker.check, GeoTag.LIKELY))
    ∧ ((∀ p ∈ peoria_indicators, containsSub p (lowerStr address) = false) →
        geocodingRun address = (Marker.warn, GeoTag.UNCERTAIN)) := by
  simp only [geocodingRun]
  refine ⟨?_, ?_, ?_, ?_⟩
  · split
    · split <;> simp
    · simp
  · intro hp hil
    have hany : peoria_indicators.any
        (fun city => containsSub city (lowerStr address)) = true :=
      List.any_eq_true.2 ⟨str "peoria", by decide, hp⟩
    rw [if_pos hany, if_pos (by simp [hp, hil])]
  · intro p hp hmatch hnotboth
    have hany : peoria_indicators.any
        (fun city => containsSub city (lowerStr address)) = true :=
      List.any_eq_true.2 ⟨p, hp, hmatch⟩
    rw [if_pos hany, if_neg (by rcases hnotboth with h | h <;> simp [h])]
  · intro hall
    have hany : peoria_indicators.any
        (fun city => containsSub city (lowerStr address)) = false :=
      List.any_eq_false.2 (fun p hp => by simp [hall p hp])
    rw [if_neg (by simp [hany])]

/-- Claim C8 counterexample: an address containing only the secondary
place name Pekin yields the LIKELY result with the positive ✅ marker — the
same marker as a confirmed address, not the warning marker the claim
asserts for this case. -/
theorem geocoding_counterexample :
    geocodingRun (str "123 Main St, Pekin") = (Marker.check, GeoTag.LIKELY)
    ∧ Marker.check ≠ Marker.warn := ⟨by decide, by decide⟩

/-- Claim C8 witness: a full Peoria, IL address is confirmed. -/
theorem geocoding_witness :
    geocodingRun (str "123 Main St, Peoria, IL") = (Marker.check, GeoTag.CONFIRMED) :=
  (geocoding_characterization _).2.1 (by decide) (by decide)

/-- Claim C9: when a search is needed and the search collaborator is absent,
the stage sets `response_source = fallback` and a non-empty resource list:
the curated entry for food and for housing, the generic 211 entry for every
other category. -/
theorem searchUnavailable_fallback (branch : CivicState → CivicState) (s : CivicState)
    (h : s.needs_search = true) :
    (searchResources false branch s).response_source = str "fallback"
    ∧ (searchResources false branch s).resources_found ≠ []
    ∧ (s.need_category = str "food" →
        (searchResources false branch s).resources_found = [foodFallbackResource])
    ∧ (s.need_category = str "housing" →
        (searchResources false branch s).resources_found = [housingFallbackResource])
    ∧ (s.need_category ≠ str "food" → s.need_category ≠ str "housing" →
        (searchResources false branch s).resources_found = [genericFallbackResource]) := by
  have hs : searchResources false branch s = useFallbackResources s := by
    unfold searchResources
    rw [h]
    simp
  rw [hs]
  unfold useFallbackResources
  refine ⟨by simp, ?_, ?_, ?_, ?_⟩
  · simp only []
    split
    · simp
    · split <;> simp
  · intro hf
    simp [hf]
  · intro hh
    simp [hh]
    decide
  · intro hf hh
    simp [beq_eq_false_iff_ne.mpr hf, beq_eq_false_iff_ne.mpr hh]

/-- Claim C9 witness: with search needed, no tool, and category food, the
state gets the fallback source and the curated food entry. -/
theorem searchUnavailable_fallback_witness :
    (searchResources false id
        { needs_search := true, need_category := str "food" }).response_source = str "fallback"
    ∧ (searchResources false id
        { needs_search := true, need_category := str "food" }).resources_found
      = [foodFallbackResource] :=
  ⟨(searchUnavailable_fallback id _ (by decide)).1,
   (searchUnavailable_fallback id _ (by decide)).2.2.1 (by decide)⟩

/-- Claim C10: the flow-variant search-result parser stores exactly the
first six parsed resources, so `resources_found` holds at most six entries
for every input text. -/
theorem flowParse_caps (cat search_text : List Char) :
    parseSearchResultsFlow cat search_text = (rawParsedResources cat search_text).take 6
    ∧ (parseSearchResultsFlow cat search_text).length ≤ 6 := by
  refine ⟨rfl, ?_⟩
  unfold parseSearchResultsFlow
  rw [List.length_take]
  exact Nat.min_le_left _ _

end Civic
